import Mathlib

/-!
Verification of the notification-queue lifecycle of
`src/components/lightswind/animated-notification.tsx`, plus the
context-guard pattern of `popover.tsx`, `sidebar.tsx` and
`dropdown-menu.tsx`.

The component is embedded as an explicit state machine.  Browser timers
(`window.setTimeout` / `window.setInterval`) become a list of pending
`Timer` records carrying an absolute due time; the single-threaded event
loop becomes a list of `Act` events applied by `applyAct`; the React
state `notes`, the `dismissTimeouts` ref map, and the `isGenerating` ref
become fields of `St`.  Invocations of the caller's
`onNotificationDismiss` callback are logged in `St.dismissed`
(the caller is assumed to have configured the callback).
-/

/-- One notification record.  Only the fields the queue logic reads are
kept: `id` (the uuid, abstracted to a Nat) and the `fadingOut` flag.
The display payload (user, message, timestamp, priority) is never
inspected by the queue code. -/
structure Note where
  id : Nat
  fadingOut : Bool
deriving DecidableEq, Repr

/-- The component props that the queue logic consumes, with the source
defaults (`maxNotifications = 3`, `autoInterval = 3500`,
`animationDuration = 800`, `autoDismissTimeout = 3000`,
`autoGenerate = true`). -/
structure Config where
  maxNotifications : Nat := 3
  autoInterval : Nat := 3500
  autoGenerate : Bool := true
  animationDuration : Nat := 800
  autoDismissTimeout : Nat := 3000
deriving DecidableEq, Repr

def cfgDefault : Config := {}

/-- The callbacks the component hands to `window.setTimeout`.
`removal` is the anonymous callback scheduled inside
`dismissNotification` (it captures the pre-fade `note` object);
`evictionRemoval` the one scheduled in the eviction branch of
`addGeneratedNote`; `manualRemoval` the one scheduled by
`handleManualDismiss`. -/
inductive Callback where
  | autoDismiss (id : Nat)
  | removal (note : Note)
  | evictionRemoval (note : Note)
  | manualRemoval (note : Note)
deriving DecidableEq, Repr

/-- A pending browser timer: its `window.setTimeout` handle, its
absolute due time, and its callback. -/
structure Timer where
  handle : Nat
  due : Nat
  cb : Callback
deriving DecidableEq, Repr

/-- The component state.  `notes` is the `useState` queue;
`timers` the pending browser timeouts; `dismissTimeouts` the
`useRef(Map<string, number>)` from note id to timeout handle;
`isGenerating` the single-flight ref; `inflight` counts the
generations actually outstanding (awaited and not yet completed);
`dismissed` logs every `onNotificationDismiss` invocation;
`mounted` is false after unmount (React ignores `setNotes` then). -/
structure St where
  notes : List Note
  timers : List Timer
  dismissTimeouts : List (Nat × Nat)
  isGenerating : Bool
  inflight : Nat
  nextHandle : Nat
  now : Nat
  dismissed : List Note
  mounted : Bool
deriving DecidableEq, Repr

/-- Freshly mounted component; `useState(notifications)` seeds the
queue with the initial prop value.  Browser timeout handles are
positive, so numbering starts at 1 (the code tests them for
truthiness). -/
def initSt (initialNotes : List Note) : St :=
  { notes := initialNotes
    timers := []
    dismissTimeouts := []
    isGenerating := false
    inflight := 0
    nextHandle := 1
    now := 0
    dismissed := []
    mounted := true }

/-- Map lookup on the `dismissTimeouts` assoc list. -/
def lookupTimeout (id : Nat) (m : List (Nat × Nat)) : Option Nat :=
  (m.find? (fun kv => kv.1 == id)).map (fun kv => kv.2)

/-- Map deletion on the `dismissTimeouts` assoc list. -/
def eraseTimeout (id : Nat) (m : List (Nat × Nat)) : List (Nat × Nat) :=
  m.filter (fun kv => !(kv.1 == id))

/-- `Map.set` semantics: at most one entry per id. -/
def insertTimeout (id h : Nat) (m : List (Nat × Nat)) : List (Nat × Nat) :=
  eraseTimeout id m ++ [(id, h)]

/-- `window.setTimeout(cb, delay)`: registers a pending timer due at
`now + delay` and returns its handle. -/
def windowSetTimeout (delay : Nat) (cb : Callback) (s : St) : Nat × St :=
  (s.nextHandle,
   { s with
      timers := s.timers ++ [{ handle := s.nextHandle, due := s.now + delay, cb := cb }]
      nextHandle := s.nextHandle + 1 })

/-- `clearNoteTimeout` (source lines 213-219): look the id up in the
map and, if a handle is recorded, `clearTimeout` it and delete the
entry. -/
def clearNoteTimeout (id : Nat) (s : St) : St :=
  match lookupTimeout id s.dismissTimeouts with
  | some t =>
      { s with
        timers := s.timers.filter (fun tt => !(tt.handle == t))
        dismissTimeouts := eraseTimeout id s.dismissTimeouts }
  | none => s

/-- The `prev.map((n) => (n.id === id ? { ...n, fadingOut: true } : n))`
pattern shared by `dismissNotification`, the eviction branch and
`handleManualDismiss`. -/
def markFading (id : Nat) (l : List Note) : List Note :=
  l.map (fun n => if n.id == id then { n with fadingOut := true } else n)

/-- `dismissNotification` (source lines 222-250).  The whole body is a
`setNotes` updater, so it is ignored after unmount.  The note is
located by id; an already-fading (or absent) note returns `prev`
unchanged; otherwise the note is marked fading, its auto timeout is
cleared and a removal callback capturing the pre-fade `note` is
scheduled after `animationDuration`. -/
def dismissNotification (cfg : Config) (id : Nat) (s : St) : St :=
  if s.mounted = false then s else
  match s.notes.find? (fun n => n.id == id) with
  | none => s
  | some note =>
    if note.fadingOut then s
    else
      let s1 := { s with notes := markFading id s.notes }
      let s2 := clearNoteTimeout id s1
      (windowSetTimeout cfg.animationDuration (Callback.removal note) s2).2

/-- The per-note auto-dismiss scheduling pattern (source lines 284-287,
291-294, 352-355): schedule `dismissNotification` after
`autoDismissTimeout` and record the handle in the map. -/
def scheduleAutoDismiss (cfg : Config) (n : Note) (s : St) : St :=
  let p := windowSetTimeout cfg.autoDismissTimeout (Callback.autoDismiss n.id) s
  { p.2 with dismissTimeouts := insertTimeout n.id p.1 p.2.dismissTimeouts }

/-- The `setNotes` updater of `addGeneratedNote` (source lines 260-297).
If the non-fading count has reached `maxNotifications`, the oldest
non-fading note is marked fading, an eviction-removal timeout is
scheduled, its auto timeout is cleared, and the new note is appended;
otherwise the new note is simply appended.  Either way an auto-dismiss
timeout is scheduled for the new note when `autoDismissTimeout > 0`.
When `maxNotifications = 0` and the queue is empty the source
dereferences `undefined` and throws inside the updater; the queue value
is left unchanged in that case. -/
def generatedInsert (cfg : Config) (newId : Nat) (s : St) : St :=
  if s.mounted = false then s else
  let newNote : Note := { id := newId, fadingOut := false }
  if cfg.maxNotifications ≤ (s.notes.filter (fun n => !n.fadingOut)).length then
    match s.notes.filter (fun n => !n.fadingOut) with
    | [] => s
    | oldest :: _ =>
      let s1 := (windowSetTimeout cfg.animationDuration (Callback.evictionRemoval oldest) s).2
      let s2 := clearNoteTimeout oldest.id s1
      let s3 := { s2 with notes := markFading oldest.id s.notes ++ [newNote] }
      if 0 < cfg.autoDismissTimeout then scheduleAutoDismiss cfg newNote s3 else s3
  else
    let s3 := { s with notes := s.notes ++ [newNote] }
    if 0 < cfg.autoDismissTimeout then scheduleAutoDismiss cfg newNote s3 else s3

/-- The synchronous prefix of `addGeneratedNote` (source lines 253-256):
bail out when `autoGenerate` is off or a generation is already in
flight, otherwise set the single-flight flag and start the awaited
fetch. -/
def addGeneratedNoteStart (cfg : Config) (s : St) : St :=
  if cfg.autoGenerate = false then s
  else if s.isGenerating then s
  else { s with isGenerating := true, inflight := s.inflight + 1 }

/-- The continuation of `addGeneratedNote` after the awaited
`generateNotification` resolves (the fetch itself never rejects: it
falls back locally), followed by the `finally` block clearing the
single-flight flag. -/
def addGeneratedNoteFinish (cfg : Config) (newId : Nat) (s : St) : St :=
  let s1 := generatedInsert cfg newId s
  { s1 with isGenerating := false, inflight := s1.inflight - 1 }

/-- `handleManualDismiss` (source lines 371-386): clear the note's auto
timeout, mark it fading (a `setNotes` updater, so mount-gated) and
schedule a removal callback unconditionally — there is no check that
the note is still present or not already fading. -/
def handleManualDismiss (cfg : Config) (note : Note) (s : St) : St :=
  let s1 := clearNoteTimeout note.id s
  let s2 := if s1.mounted then { s1 with notes := markFading note.id s1.notes } else s1
  (windowSetTimeout cfg.animationDuration (Callback.manualRemoval note) s2).2

/-- The `notifications` sync effect (source lines 344-359): only for a
non-empty prop batch, clear every timeout recorded in the map, reset
the queue to the batch wholesale, and schedule auto-dismiss for each
supplied record.  Removal timeouts are not recorded in the map and are
therefore not cleared. -/
def syncNotificationsEffect (cfg : Config) (batch : List Note) (s : St) : St :=
  if 0 < batch.length then
    let s1 := { s with
      timers := s.timers.filter (fun t => !(s.dismissTimeouts.any (fun kv => kv.2 == t.handle)))
      dismissTimeouts := [] }
    let s2 := { s1 with notes := batch }
    if 0 < cfg.autoDismissTimeout then
      batch.foldl (fun st n => scheduleAutoDismiss cfg n st) s2
    else s2
  else s

/-- The unmount cleanup effect (source lines 362-368): clear the
generation interval (modelled by the `mounted` guard on ticks) and
every timeout recorded in the `dismissTimeouts` map. -/
def cleanupEffect (s : St) : St :=
  let s1 := { s with
    timers := s.timers.filter (fun t => !(s.dismissTimeouts.any (fun kv => kv.2 == t.handle)))
    dismissTimeouts := [] }
  { s1 with mounted := false }

/-- Execution of a fired timer callback.  `removal` and
`manualRemoval` run entirely inside a `setNotes` updater (mount-gated)
and invoke `onNotificationDismiss` unconditionally on the captured
note — the source's `if (note && onNotificationDismiss)` tests the
captured closure variable, which is always non-null.
`evictionRemoval` (source lines 270-274) calls `clearNoteTimeout` and
`onNotificationDismiss` outside the updater. -/
def runCallback (cfg : Config) (cb : Callback) (s : St) : St :=
  match cb with
  | Callback.autoDismiss id => dismissNotification cfg id s
  | Callback.removal note =>
      if s.mounted = false then s
      else { s with
              notes := s.notes.filter (fun n => !(n.id == note.id))
              dismissed := s.dismissed ++ [note] }
  | Callback.manualRemoval note =>
      if s.mounted = false then s
      else { s with
              notes := s.notes.filter (fun n => !(n.id == note.id))
              dismissed := s.dismissed ++ [note] }
  | Callback.evictionRemoval note =>
      let s1 := if s.mounted then { s with notes := s.notes.filter (fun n => !(n.id == note.id)) } else s
      let s2 := clearNoteTimeout note.id s1
      { s2 with dismissed := s2.dismissed ++ [note] }

/-- A browser timeout fires: it is removed from the pending set and its
callback runs. -/
def fireTimer (cfg : Config) (h : Nat) (s : St) : St :=
  match s.timers.find? (fun t => t.handle == h) with
  | none => s
  | some t => runCallback cfg t.cb { s with timers := s.timers.filter (fun tt => !(tt.handle == h)) }

/-- The events of the single-threaded event loop. -/
inductive Act where
  | tick
  | complete (newId : Nat)
  | fire (h : Nat)
  | manual (note : Note)
  | sync (batch : List Note)
  | advance (d : Nat)
  | unmount

/-- Effect of one event on the state. -/
def applyAct (cfg : Config) (a : Act) (s : St) : St :=
  match a with
  | Act.tick => addGeneratedNoteStart cfg s
  | Act.complete newId => addGeneratedNoteFinish cfg newId s
  | Act.fire h => fireTimer cfg h s
  | Act.manual note => handleManualDismiss cfg note s
  | Act.sync batch => syncNotificationsEffect cfg batch s
  | Act.advance d => { s with now := s.now + d }
  | Act.unmount => cleanupEffect s

/-- Which events the browser can actually deliver in a state: the
interval only ticks while mounted, a generation completes only while
one is in flight, a timer fires only once due and still pending, a
manual dismissal clicks a rendered note, the sync effect and unmount
happen to a mounted component. -/
def enabledAct (cfg : Config) (a : Act) (s : St) : Bool :=
  match a with
  | Act.tick => s.mounted && cfg.autoGenerate
  | Act.complete _ => decide (0 < s.inflight)
  | Act.fire h =>
      match s.timers.find? (fun t => t.handle == h) with
      | some t => decide (t.due ≤ s.now)
      | none => false
  | Act.manual note => s.mounted && decide (note ∈ s.notes)
  | Act.sync _ => s.mounted
  | Act.advance _ => true
  | Act.unmount => s.mounted

/-- Run a sequence of events. -/
def runActs (cfg : Config) (s : St) : List Act → St
  | [] => s
  | a :: rest => runActs cfg (applyAct cfg a s) rest

/-- Whether every event of the sequence is deliverable at the point
where it occurs. -/
def allowedActs (cfg : Config) (s : St) : List Act → Bool
  | [] => true
  | a :: rest => enabledAct cfg a s && allowedActs cfg (applyAct cfg a s) rest

/-- The number of non-fading-out records. -/
def cntNF (l : List Note) : Nat := (l.filter (fun n => !n.fadingOut)).length

/-- The batches handed to the sync effect within an event sequence. -/
def syncBatches : List Act → List (List Note)
  | [] => []
  | Act.sync b :: rest => b :: syncBatches rest
  | _ :: rest => syncBatches rest

/-! ### `fetchRandomUser` (source lines 150-169)

The remote response is embedded as a tree of `Option`s mirroring the
JavaScript distinction between a missing field (`undefined`, which only
throws when a further field is read off it) and a present one.  A
thrown `TypeError` inside the `try` block is `Except.error ()`.
`Math.random()` draws are passed in as parameters. -/

/-- The `name` object of a fetched result. -/
structure RName where
  first : Option String
  last : Option String
deriving DecidableEq, Repr

/-- The `picture` object of a fetched result. -/
structure RPicture where
  large : Option String
deriving DecidableEq, Repr

/-- One element of the response's `results` list. -/
structure RUser where
  name : Option RName
  picture : Option RPicture
deriving DecidableEq, Repr

/-- The parsed response body. -/
structure RData where
  results : Option (List RUser)
deriving DecidableEq, Repr

/-- Outcome of `fetch` + `res.json()`: `fail` covers a network error or
a body that does not parse. -/
inductive FetchOutcome where
  | fail
  | ok (data : RData)
deriving DecidableEq, Repr

/-- The returned user record. -/
structure NotificationUser where
  avatarUrl : Option String
  name : String
  initials : Option String
  color : String
deriving DecidableEq, Repr

/-- JavaScript string interpolation of a possibly-missing value. -/
def jsStr : Option String → String
  | some s => s
  | none => "undefined"

/-- The `hsl(...)` color string built from a hue draw. -/
def hslColor (hue : Nat) : String :=
  "hsl(" ++ toString (hue % 360) ++ ", 70%, 80%)"

/-- The fixed local list (source local `names`, line 162). -/
def fallbackNames : List String :=
  ["John Doe", "Jane Smith", "Alex Johnson", "Sarah Wilson", "Mike Brown"]

/-- The `catch` branch (source lines 161-168): a user drawn from the
fixed local list; `Math.floor(Math.random() * names.length)` is the
index draw, always in range. -/
def fallbackUser (hue idx : Nat) : NotificationUser :=
  { avatarUrl := none
    name := fallbackNames.getD (idx % fallbackNames.length) "John Doe"
    initials := none
    color := hslColor hue }

/-- The `try` block (source lines 152-160) on a parsed response.
`data.results[0]` throws when `results` is missing; indexing an empty
list yields `undefined` without throwing, and then
`user.picture?.large` throws (the optional chain only guards `.large`).
`user.name.first` throws exactly when the `name` object is missing; a
present `name` with missing `first`/`last` interpolates the string
"undefined" instead of throwing. -/
def tryFetchUser (data : RData) (hue : Nat) : Except Unit NotificationUser :=
  match data.results with
  | none => Except.error ()
  | some results =>
    match results.head? with
    | none => Except.error ()
    | some user =>
      let avatarUrl := user.picture.bind (fun p => p.large)
      match user.name with
      | none => Except.error ()
      | some nm =>
          Except.ok
            { avatarUrl := avatarUrl
              name := jsStr nm.first ++ " " ++ jsStr nm.last
              initials := none
              color := hslColor hue }

/-- `fetchRandomUser`: the `try`/`catch` wrapper.  It is total — every
failure path lands in the local fallback. -/
def fetchRandomUser (outcome : FetchOutcome) (hue idx : Nat) : NotificationUser :=
  match outcome with
  | FetchOutcome.fail => fallbackUser hue idx
  | FetchOutcome.ok data =>
    match tryFetchUser data hue with
    | Except.ok u => u
    | Except.error _ => fallbackUser hue idx

/-- The exact condition under which the `try` block of the source
throws (and the fallback list is therefore used): fetch/parse failure,
missing `results`, empty `results`, or a first result lacking its
`name` object. -/
def fallsBack : FetchOutcome → Bool
  | FetchOutcome.fail => true
  | FetchOutcome.ok d =>
    match d.results with
    | none => true
    | some rs =>
      match rs.head? with
      | none => true
      | some u => u.name.isNone

/-! ### Context-guarded sub-components (C9)

`PopoverTrigger` (popover.tsx lines 107-109), `useSidebar`
(sidebar.tsx lines 92-94) and `DropdownMenuTrigger` (dropdown-menu.tsx
lines 81-82) all read their React context and throw when it is absent.
The context payload is abstracted to an opaque marker — the guard only
tests presence.  A throw is `Except.error` with the source's message. -/

/-- The value provided by `PopoverContext.Provider`. -/
structure PopoverContextValue where
  isOpen : Bool
deriving DecidableEq, Repr

/-- The value provided by `SidebarContext.Provider`. -/
structure SidebarContextValue where
  isOpen : Bool
deriving DecidableEq, Repr

/-- The value provided by `DropdownMenuContext.Provider`. -/
structure DropdownMenuContextValue where
  isOpen : Bool
deriving DecidableEq, Repr

/-- The context guard of `PopoverTrigger`. -/
def PopoverTrigger (ctx : Option PopoverContextValue) : Except String PopoverContextValue :=
  match ctx with
  | none => Except.error "PopoverTrigger must be used within a Popover"
  | some c => Except.ok c

/-- The context guard of `useSidebar`. -/
def useSidebar (ctx : Option SidebarContextValue) : Except String SidebarContextValue :=
  match ctx with
  | none => Except.error "useSidebar must be used within a SidebarProvider"
  | some c => Except.ok c

/-- The context guard of `DropdownMenuTrigger`. -/
def DropdownMenuTrigger (ctx : Option DropdownMenuContextValue) : Except String DropdownMenuContextValue :=
  match ctx with
  | none => Except.error "DropdownMenuTrigger must be used within a DropdownMenu"
  | some c => Except.ok c

/-- Whether the component threw. -/
def throwsError {α : Type} : Except String α → Bool
  | Except.error _ => true
  | Except.ok _ => false

/-! ### Concrete event sequences used by the counterexample and
code-bug theorems.  All use the default configuration
(`maxNotifications = 3`, `autoDismissTimeout = 3000`,
`animationDuration = 800`). -/

/-- An externally supplied batch of four visible records. -/
def c1Batch : List Note := [⟨1, false⟩, ⟨2, false⟩, ⟨3, false⟩, ⟨4, false⟩]

/-- Record 1 is installed, its auto-dismiss fires at t = 3000 (timer
handle 1), the user clicks dismiss on the now-fading record, and both
scheduled removals (handles 2 and 3) fire at t = 3800. -/
def c2Acts : List Act :=
  [Act.sync [⟨1, false⟩], Act.advance 3000, Act.fire 1,
   Act.manual ⟨1, true⟩, Act.advance 800, Act.fire 2, Act.fire 3]

/-- Record 1 is installed and its auto-dismiss fires, leaving it in the
fading-out state with its removal (handle 2) pending. -/
def c3Acts : List Act :=
  [Act.sync [⟨1, false⟩], Act.advance 3000, Act.fire 1]

/-- Record 1 is installed, auto-dismissed at t = 3000 (scheduling
removal handle 2 for t = 3800), and then the caller supplies a fresh
batch containing only record 2. -/
def c5ActsPrefix : List Act :=
  [Act.sync [⟨1, false⟩], Act.advance 3000, Act.fire 1, Act.sync [⟨2, false⟩]]

/-- The same, followed by the stale removal (handle 2) firing at
t = 3800. -/
def c5Acts : List Act := c5ActsPrefix ++ [Act.advance 800, Act.fire 2]

/-- Record 1 is installed, manually dismissed (scheduling removal
handle 2 for t = 800), and the component unmounts before the
animation delay has elapsed. -/
def c6Acts : List Act :=
  [Act.sync [⟨1, false⟩], Act.manual ⟨1, false⟩, Act.unmount]

/-- A response whose first result carries a `name` object but no
`picture` object. -/
def c7Data : RData :=
  { results := some [{ name := some { first := some "Alice", last := some "Stone" }
                       picture := none }] }

/-! ### Single-flight invariant (C8) -/

/-- The single-flight guard is accurate: at most one generation is ever
outstanding, and `isGenerating` is set exactly while one is. -/
def GenInv (s : St) : Prop :=
  s.inflight ≤ 1 ∧ (s.isGenerating = true ↔ s.inflight = 1)

/-- A mounted state holding exactly three visible records with a
generation in flight, used to witness the eviction theorem. -/
def c4St : St :=
  { notes := [⟨1, false⟩, ⟨2, false⟩, ⟨3, false⟩]
    timers := []
    dismissTimeouts := []
    isGenerating := true
    inflight := 1
    nextHandle := 1
    now := 0
    dismissed := []
    mounted := true }

/-- C1, claim as stated, is false: the wholesale-replacement path
installs an externally supplied batch verbatim, with no capacity
pruning, so a legal insertion sequence consisting of one external
batch of four visible records leaves four non-fading records in a
queue configured with `maxNotifications = 3`. -/
theorem c1_counterexample :
    allowedActs cfgDefault (initSt []) [Act.sync c1Batch] = true
    ∧ cfgDefault.maxNotifications = 3
    ∧ cntNF (runActs cfgDefault (initSt []) [Act.sync c1Batch]).notes = 4 := by
  decide

/-- C2 (code bug): the dismissal callback can fire twice for one
identifier.  Record 1's auto-dismiss puts it in the fading-out state
and schedules its removal; a manual dismissal of the still-rendered
fading record schedules a second, unguarded removal; when both
removals run, `onNotificationDismiss` is invoked twice for id 1 —
the event sequence is deliverable end to end. -/
theorem c2_double_callback :
    allowedActs cfgDefault (initSt []) c2Acts = true
    ∧ (runActs cfgDefault (initSt []) c2Acts).dismissed.map Note.id = [1, 1] := by
  decide

/-- C3 (code bug): after record 1 is already fading out,
`dismissNotification` is indeed a no-op, but `handleManualDismiss` is
not: it leaves the queue value unchanged yet schedules an additional
removal callback (so a further dismissal-callback invocation is
pending), hence it is not a no-op on the state. -/
theorem c3_manual_not_noop :
    allowedActs cfgDefault (initSt []) c3Acts = true
    ∧ (runActs cfgDefault (initSt []) c3Acts).notes = [⟨1, true⟩]
    ∧ dismissNotification cfgDefault 1 (runActs cfgDefault (initSt []) c3Acts)
        = runActs cfgDefault (initSt []) c3Acts
    ∧ handleManualDismiss cfgDefault ⟨1, true⟩ (runActs cfgDefault (initSt []) c3Acts)
        ≠ runActs cfgDefault (initSt []) c3Acts
    ∧ (handleManualDismiss cfgDefault ⟨1, true⟩ (runActs cfgDefault (initSt []) c3Acts)).timers.map Timer.cb
        = [Callback.removal ⟨1, false⟩, Callback.manualRemoval ⟨1, true⟩] := by
  decide

/-- C5 (code bug): a wholesale replacement does not cancel the pending
removal timeout of the prior contents (it is not recorded in
`dismissTimeouts`), and when that stale removal fires it still invokes
the dismissal callback for the long-replaced record 1, even though the
queue already holds only the new batch. -/
theorem c5_stale_removal_fires :
    allowedActs cfgDefault (initSt []) c5Acts = true
    ∧ (runActs cfgDefault (initSt []) c5ActsPrefix).notes = [⟨2, false⟩]
    ∧ (runActs cfgDefault (initSt []) c5ActsPrefix).timers.map Timer.cb
        = [Callback.removal ⟨1, false⟩, Callback.autoDismiss 2]
    ∧ (runActs cfgDefault (initSt []) c5Acts).dismissed = [⟨1, false⟩] := by
  decide

/-- C6 (code bug): the unmount cleanup clears only the generation
interval and the timeouts recorded in `dismissTimeouts`; a removal
timeout scheduled by a manual dismissal is not recorded there, so
after teardown a scheduled callback of the subsystem is still
pending. -/
theorem c6_removal_survives_unmount :
    allowedActs cfgDefault (initSt []) c6Acts = true
    ∧ (runActs cfgDefault (initSt []) c6Acts).mounted = false
    ∧ (runActs cfgDefault (initSt []) c6Acts).timers.map Timer.cb
        = [Callback.manualRemoval ⟨1, false⟩] := by
  decide

/-- C7, claim as stated, is false: a response missing the expected
field `picture.large` does not fall back to the fixed local name list
— `user.picture?.large` merely yields `undefined`, and the fetched
name "Alice Stone", which is not in the list, is returned. -/
theorem c7_counterexample :
    (fetchRandomUser (FetchOutcome.ok c7Data) 0 0).name = "Alice Stone"
    ∧ "Alice Stone" ∉ fallbackNames := by
  decide

/-- C9: each context-consuming sub-component throws exactly when its
provider context is absent — `PopoverTrigger`, `useSidebar` and
`DropdownMenuTrigger` return an error if and only if the context is
`none`, and succeed otherwise (no recovery path). -/
theorem c9_context_guards (p : Option PopoverContextValue)
    (sb : Option SidebarContextValue) (d : Option DropdownMenuContextValue) :
    (throwsError (PopoverTrigger p) = true ↔ p = none)
    ∧ (throwsError (useSidebar sb) = true ↔ sb = none)
    ∧ (throwsError (DropdownMenuTrigger d) = true ↔ d = none) := by
  refine ⟨?_, ?_, ?_⟩
  · cases p <;> simp [PopoverTrigger, throwsError]
  · cases sb <;> simp [useSidebar, throwsError]
  · cases d <;> simp [DropdownMenuTrigger, throwsError]

/-- C10: the sync effect guards on `notifications.length > 0`, so an
empty supplied batch leaves the entire state — queue, pending timers
and timeout registry alike — untouched. -/
theorem c10_empty_batch_noop (cfg : Config) (s : St) :
    syncNotificationsEffect cfg [] s = s := rfl

/-! ### Projection lemmas for the state operations -/

@[simp] theorem notes_windowSetTimeout (d : Nat) (cb : Callback) (s : St) :
    ((windowSetTimeout d cb s).2).notes = s.notes := rfl

@[simp] theorem isGenerating_windowSetTimeout (d : Nat) (cb : Callback) (s : St) :
    ((windowSetTimeout d cb s).2).isGenerating = s.isGenerating := rfl

@[simp] theorem inflight_windowSetTimeout (d : Nat) (cb : Callback) (s : St) :
    ((windowSetTimeout d cb s).2).inflight = s.inflight := rfl

@[simp] theorem notes_clearNoteTimeout (id : Nat) (s : St) :
    (clearNoteTimeout id s).notes = s.notes := by
  unfold clearNoteTimeout; split <;> rfl

@[simp] theorem isGenerating_clearNoteTimeout (id : Nat) (s : St) :
    (clearNoteTimeout id s).isGenerating = s.isGenerating := by
  unfold clearNoteTimeout; split <;> rfl

@[simp] theorem inflight_clearNoteTimeout (id : Nat) (s : St) :
    (clearNoteTimeout id s).inflight = s.inflight := by
  unfold clearNoteTimeout; split <;> rfl

@[simp] theorem notes_scheduleAutoDismiss (cfg : Config) (n : Note) (s : St) :
    (scheduleAutoDismiss cfg n s).notes = s.notes := rfl

@[simp] theorem isGenerating_scheduleAutoDismiss (cfg : Config) (n : Note) (s : St) :
    (scheduleAutoDismiss cfg n s).isGenerating = s.isGenerating := rfl

@[simp] theorem inflight_scheduleAutoDismiss (cfg : Config) (n : Note) (s : St) :
    (scheduleAutoDismiss cfg n s).inflight = s.inflight := rfl

@[simp] theorem notes_foldl_scheduleAutoDismiss (cfg : Config) (bs : List Note) (s : St) :
    (bs.foldl (fun st n => scheduleAutoDismiss cfg n st) s).notes = s.notes := by
  induction bs generalizing s with
  | nil => rfl
  | cons b t ih => simp [List.foldl_cons, ih]

@[simp] theorem isGenerating_foldl_scheduleAutoDismiss (cfg : Config) (bs : List Note) (s : St) :
    (bs.foldl (fun st n => scheduleAutoDismiss cfg n st) s).isGenerating = s.isGenerating := by
  induction bs generalizing s with
  | nil => rfl
  | cons b t ih => simp [List.foldl_cons, ih]

@[simp] theorem inflight_foldl_scheduleAutoDismiss (cfg : Config) (bs : List Note) (s : St) :
    (bs.foldl (fun st n => scheduleAutoDismiss cfg n st) s).inflight = s.inflight := by
  induction bs generalizing s with
  | nil => rfl
  | cons b t ih => simp [List.foldl_cons, ih]

theorem isGenerating_dismissNotification (cfg : Config) (id : Nat) (s : St) :
    (dismissNotification cfg id s).isGenerating = s.isGenerating := by
  unfold dismissNotification; split
  · rfl
  · split
    · rfl
    · split <;> simp

theorem inflight_dismissNotification (cfg : Config) (id : Nat) (s : St) :
    (dismissNotification cfg id s).inflight = s.inflight := by
  unfold dismissNotification; split
  · rfl
  · split
    · rfl
    · split <;> simp

theorem isGenerating_runCallback (cfg : Config) (cb : Callback) (s : St) :
    (runCallback cfg cb s).isGenerating = s.isGenerating := by
  cases cb with
  | autoDismiss id => exact isGenerating_dismissNotification cfg id s
  | removal note => simp only [runCallback]; split <;> rfl
  | manualRemoval note => simp only [runCallback]; split <;> rfl
  | evictionRemoval note => simp only [runCallback]; split <;> simp

theorem inflight_runCallback (cfg : Config) (cb : Callback) (s : St) :
    (runCallback cfg cb s).inflight = s.inflight := by
  cases cb with
  | autoDismiss id => exact inflight_dismissNotification cfg id s
  | removal note => simp only [runCallback]; split <;> rfl
  | manualRemoval note => simp only [runCallback]; split <;> rfl
  | evictionRemoval note => simp only [runCallback]; split <;> simp

theorem isGenerating_fireTimer (cfg : Config) (h : Nat) (s : St) :
    (fireTimer cfg h s).isGenerating = s.isGenerating := by
  unfold fireTimer; split
  · rfl
  · rw [isGenerating_runCallback]

theorem inflight_fireTimer (cfg : Config) (h : Nat) (s : St) :
    (fireTimer cfg h s).inflight = s.inflight := by
  unfold fireTimer; split
  · rfl
  · rw [inflight_runCallback]

theorem isGenerating_handleManualDismiss (cfg : Config) (note : Note) (s : St) :
    (handleManualDismiss cfg note s).isGenerating = s.isGenerating := by
  unfold handleManualDismiss
  simp only [isGenerating_windowSetTimeout]
  split <;> simp

theorem inflight_handleManualDismiss (cfg : Config) (note : Note) (s : St) :
    (handleManualDismiss cfg note s).inflight = s.inflight := by
  unfold handleManualDismiss
  simp only [inflight_windowSetTimeout]
  split <;> simp

theorem isGenerating_syncNotificationsEffect (cfg : Config) (batch : List Note) (s : St) :
    (syncNotificationsEffect cfg batch s).isGenerating = s.isGenerating := by
  unfold syncNotificationsEffect; split
  · split <;> simp
  · rfl

theorem inflight_syncNotificationsEffect (cfg : Config) (batch : List Note) (s : St) :
    (syncNotificationsEffect cfg batch s).inflight = s.inflight := by
  unfold syncNotificationsEffect; split
  · split <;> simp
  · rfl

theorem isGenerating_generatedInsert (cfg : Config) (newId : Nat) (s : St) :
    (generatedInsert cfg newId s).isGenerating = s.isGenerating := by
  unfold generatedInsert; split
  · rfl
  · split
    · split
      · rfl
      · split <;> simp
    · split <;> simp

theorem inflight_generatedInsert (cfg : Config) (newId : Nat) (s : St) :
    (generatedInsert cfg newId s).inflight = s.inflight := by
  unfold generatedInsert; split
  · rfl
  · split
    · split
      · rfl
      · split <;> simp
    · split <;> simp

/-! ### Counting non-fading records -/

theorem markFading_cons (i : Nat) (n : Note) (t : List Note) :
    markFading i (n :: t)
      = (if n.id == i then { n with fadingOut := true } else n) :: markFading i t := rfl

theorem cntNF_cons (n : Note) (t : List Note) :
    cntNF (n :: t) = (if n.fadingOut then 0 else 1) + cntNF t := by
  by_cases hf : n.fadingOut <;> (simp [cntNF, List.filter_cons, hf]; try omega)

/-- Marking a record as fading never increases the non-fading count. -/
theorem cntNF_markFading_le (i : Nat) (l : List Note) :
    cntNF (markFading i l) ≤ cntNF l := by
  induction l with
  | nil => exact Nat.le_refl 0
  | cons n t ih =>
    rw [markFading_cons, cntNF_cons, cntNF_cons]
    by_cases hid : (n.id == i) = true <;> by_cases hf : n.fadingOut <;>
      simp [hid, hf] <;> omega

/-- Marking a record that is present and currently non-fading strictly
decreases the non-fading count. -/
theorem cntNF_markFading_succ (l : List Note) (o : Note)
    (ho : o ∈ l) (hf : o.fadingOut = false) :
    cntNF (markFading o.id l) + 1 ≤ cntNF l := by
  induction l with
  | nil => cases ho
  | cons n t ih =>
    rw [markFading_cons, cntNF_cons, cntNF_cons]
    rcases List.mem_cons.mp ho with h | h
    · subst h
      have h2 := cntNF_markFading_le o.id t
      simp [hf]
      omega
    · have h1 := ih h
      have h2 := cntNF_markFading_le o.id t
      by_cases hid : (n.id == o.id) = true <;> by_cases hnf : n.fadingOut <;>
        simp [hid, hnf] <;> omega

theorem cntNF_filter_le (p : Note → Bool) (l : List Note) :
    cntNF (l.filter p) ≤ cntNF l :=
  List.Sublist.length_le (List.Sublist.filter _ (List.filter_sublist l))

theorem cntNF_append_one (l : List Note) (i : Nat) :
    cntNF (l ++ [{ id := i, fadingOut := false }]) = cntNF l + 1 := by
  simp [cntNF, List.filter_append]

theorem cntNF_dismissNotification_le (cfg : Config) (id : Nat) (s : St) :
    cntNF (dismissNotification cfg id s).notes ≤ cntNF s.notes := by
  unfold dismissNotification
  split
  · exact Nat.le_refl _
  · split
    · exact Nat.le_refl _
    · split
      · exact Nat.le_refl _
      · simp only [notes_windowSetTimeout, notes_clearNoteTimeout]
        exact cntNF_markFading_le _ _

theorem cntNF_runCallback_le (cfg : Config) (cb : Callback) (s : St) :
    cntNF (runCallback cfg cb s).notes ≤ cntNF s.notes := by
  cases cb with
  | autoDismiss id => exact cntNF_dismissNotification_le cfg id s
  | removal note =>
    simp only [runCallback]
    split
    · exact Nat.le_refl _
    · exact cntNF_filter_le _ _
  | manualRemoval note =>
    simp only [runCallback]
    split
    · exact Nat.le_refl _
    · exact cntNF_filter_le _ _
  | evictionRemoval note =>
    simp only [runCallback, notes_clearNoteTimeout]
    split
    · exact cntNF_filter_le _ _
    · exact Nat.le_refl _

theorem cntNF_fireTimer_le (cfg : Config) (h : Nat) (s : St) :
    cntNF (fireTimer cfg h s).notes ≤ cntNF s.notes := by
  unfold fireTimer
  split
  · exact Nat.le_refl _
  · exact cntNF_runCallback_le cfg _ _

theorem cntNF_handleManualDismiss_le (cfg : Config) (note : Note) (s : St) :
    cntNF (handleManualDismiss cfg note s).notes ≤ cntNF s.notes := by
  unfold handleManualDismiss
  simp only [notes_windowSetTimeout]
  split
  · simp only [notes_clearNoteTimeout]
    exact cntNF_markFading_le _ _
  · simp only [notes_clearNoteTimeout]
    exact Nat.le_refl _

theorem cntNF_generatedInsert_le (cfg : Config) (newId : Nat) (s : St)
    (hb : cntNF s.notes ≤ cfg.maxNotifications) :
    cntNF (generatedInsert cfg newId s).notes ≤ cfg.maxNotifications := by
  unfold generatedInsert
  split
  · exact hb
  · split
    · split
      · exact hb
      · rename_i oldest rest heq
        have hmem : oldest ∈ s.notes.filter (fun n => !n.fadingOut) := by
          rw [heq]; exact List.mem_cons_self _ _
        have ho : oldest ∈ s.notes := List.mem_of_mem_filter hmem
        have hf : oldest.fadingOut = false := by
          have := List.of_mem_filter hmem
          simpa using this
        have hkey := cntNF_markFading_succ s.notes oldest ho hf
        split <;> simp only [notes_scheduleAutoDismiss] <;> rw [cntNF_append_one] <;> omega
    · rename_i hlt
      have hx : (s.notes.filter (fun n => !n.fadingOut)).length < cfg.maxNotifications :=
        Nat.lt_of_not_le hlt
      have hx2 : cntNF s.notes = (s.notes.filter (fun n => !n.fadingOut)).length := rfl
      split <;> simp only [notes_scheduleAutoDismiss] <;> rw [cntNF_append_one] <;> omega

theorem notes_addGeneratedNoteStart (cfg : Config) (s : St) :
    (addGeneratedNoteStart cfg s).notes = s.notes := by
  unfold addGeneratedNoteStart
  split
  · rfl
  · split <;> rfl

theorem cntNF_applyAct_le (cfg : Config) (a : Act) (s : St)
    (hb : cntNF s.notes ≤ cfg.maxNotifications)
    (hs : ∀ b, a = Act.sync b → cntNF b ≤ cfg.maxNotifications) :
    cntNF (applyAct cfg a s).notes ≤ cfg.maxNotifications := by
  cases a with
  | tick =>
    show cntNF (addGeneratedNoteStart cfg s).notes ≤ cfg.maxNotifications
    rw [notes_addGeneratedNoteStart]; exact hb
  | complete newId => exact cntNF_generatedInsert_le cfg newId s hb
  | fire h => exact Nat.le_trans (cntNF_fireTimer_le cfg h s) hb
  | manual note => exact Nat.le_trans (cntNF_handleManualDismiss_le cfg note s) hb
  | sync batch =>
    show cntNF (syncNotificationsEffect cfg batch s).notes ≤ cfg.maxNotifications
    unfold syncNotificationsEffect
    split
    · split
      · simp only [notes_foldl_scheduleAutoDismiss]
        exact hs batch rfl
      · exact hs batch rfl
    · exact hb
  | advance d => exact hb
  | unmount => exact hb

theorem mem_syncBatches_cons (b : List Note) (a : Act) (rest : List Act)
    (h : b ∈ syncBatches rest) : b ∈ syncBatches (a :: rest) := by
  cases a <;> simp [syncBatches, h]

theorem cntNF_runActs_le (cfg : Config) (s : St) (acts : List Act)
    (hb : cntNF s.notes ≤ cfg.maxNotifications)
    (hs : ∀ b ∈ syncBatches acts, cntNF b ≤ cfg.maxNotifications) :
    cntNF (runActs cfg s acts).notes ≤ cfg.maxNotifications := by
  induction acts generalizing s with
  | nil => exact hb
  | cons a rest ih =>
    refine ih (applyAct cfg a s) (cntNF_applyAct_le cfg a s hb ?_) ?_
    · intro b hab
      subst hab
      exact hs b (by simp [syncBatches])
    · intro b hbmem
      exact hs b (mem_syncBatches_cons b a rest hbmem)

/-- C1 (amended): under every event sequence — generator insertions,
timer firings, manual dismissals, time advances and unmount — starting
from a queue within the bound, the number of non-fading-out records
never exceeds `maxNotifications`, provided every externally supplied
batch itself contains at most `maxNotifications` non-fading records;
an external batch is installed verbatim, so without that proviso the
bound can be exceeded (see the counterexample). -/
theorem c1_amended_capacity (cfg : Config) (ns : List Note) (acts : List Act)
    (hns : cntNF ns ≤ cfg.maxNotifications)
    (hs : ∀ b ∈ syncBatches acts, cntNF b ≤ cfg.maxNotifications) :
    cntNF (runActs cfg (initSt ns) acts).notes ≤ cfg.maxNotifications :=
  cntNF_runActs_le cfg (initSt ns) acts hns hs

/-- Witness for the amended C1 theorem: a run with an in-bound external
batch followed by a generator insertion stays within the default
maximum. -/
theorem c1_amended_capacity_witness :
    cntNF (runActs cfgDefault (initSt [])
      [Act.sync [⟨7, false⟩], Act.tick, Act.complete 8]).notes
      ≤ cfgDefault.maxNotifications :=
  c1_amended_capacity cfgDefault [] [Act.sync [⟨7, false⟩], Act.tick, Act.complete 8]
    (by decide) (by decide)

theorem genInv_applyAct (cfg : Config) (a : Act) (s : St) (h : GenInv s) :
    GenInv (applyAct cfg a s) := by
  obtain ⟨h1, h2⟩ := h
  cases a with
  | tick =>
    show GenInv (addGeneratedNoteStart cfg s)
    unfold addGeneratedNoteStart
    split
    · exact ⟨h1, h2⟩
    · split
      · exact ⟨h1, h2⟩
      · rename_i hgen
        have h3 : ¬ s.inflight = 1 := fun he => hgen (h2.mpr he)
        constructor
        · simp only []
          omega
        · simp only []
          constructor
          · intro _; omega
          · intro _; trivial
  | complete newId =>
    show GenInv (addGeneratedNoteFinish cfg newId s)
    unfold addGeneratedNoteFinish
    constructor
    · simp only [inflight_generatedInsert]
      omega
    · simp only [inflight_generatedInsert]
      constructor
      · intro hc; cases hc
      · intro hc; omega
  | fire hh =>
    show GenInv (fireTimer cfg hh s)
    refine ⟨?_, ?_⟩
    · rw [inflight_fireTimer]; exact h1
    · rw [isGenerating_fireTimer, inflight_fireTimer]; exact h2
  | manual note =>
    show GenInv (handleManualDismiss cfg note s)
    refine ⟨?_, ?_⟩
    · rw [inflight_handleManualDismiss]; exact h1
    · rw [isGenerating_handleManualDismiss, inflight_handleManualDismiss]; exact h2
  | sync batch =>
    show GenInv (syncNotificationsEffect cfg batch s)
    refine ⟨?_, ?_⟩
    · rw [inflight_syncNotificationsEffect]; exact h1
    · rw [isGenerating_syncNotificationsEffect, inflight_syncNotificationsEffect]; exact h2
  | advance d => exact ⟨h1, h2⟩
  | unmount => exact ⟨h1, h2⟩

theorem genInv_runActs (cfg : Config) (s : St) (acts : List Act) (h : GenInv s) :
    GenInv (runActs cfg s acts) := by
  induction acts generalizing s with
  | nil => exact h
  | cons a rest ih => exact ih (applyAct cfg a s) (genInv_applyAct cfg a s h)

/-- C8: in every state reachable by an event sequence from a freshly
mounted component, at most one generation is in flight and the
single-flight flag is set exactly while one is; a tick of the interval
while the flag is set leaves the state unchanged (no record is
produced or inserted); and completing the in-flight generation always
clears the flag and leaves no generation outstanding. -/
theorem c8_single_flight (cfg : Config) (ns : List Note) (acts : List Act) :
    (runActs cfg (initSt ns) acts).inflight ≤ 1
    ∧ ((runActs cfg (initSt ns) acts).isGenerating = true
        ↔ (runActs cfg (initSt ns) acts).inflight = 1)
    ∧ ((runActs cfg (initSt ns) acts).isGenerating = true
        → addGeneratedNoteStart cfg (runActs cfg (initSt ns) acts)
            = runActs cfg (initSt ns) acts)
    ∧ (∀ newId,
        (addGeneratedNoteFinish cfg newId (runActs cfg (initSt ns) acts)).isGenerating = false
        ∧ (addGeneratedNoteFinish cfg newId (runActs cfg (initSt ns) acts)).inflight = 0) := by
  have hinv : GenInv (runActs cfg (initSt ns) acts) :=
    genInv_runActs cfg (initSt ns) acts ⟨by simp [initSt], by simp [initSt]⟩
  obtain ⟨h1, h2⟩ := hinv
  refine ⟨h1, h2, ?_, ?_⟩
  · intro hg
    unfold addGeneratedNoteStart
    split <;> rfl
  · intro newId
    unfold addGeneratedNoteFinish
    refine ⟨rfl, ?_⟩
    simp only [inflight_generatedInsert]
    omega

/-- Witness for the C8 theorem: after one interval tick from a fresh
mount the guard is set, a second tick is a no-op, and at most one
generation is outstanding. -/
theorem c8_single_flight_witness :
    (runActs cfgDefault (initSt []) [Act.tick]).inflight ≤ 1
    ∧ addGeneratedNoteStart cfgDefault (runActs cfgDefault (initSt []) [Act.tick])
        = runActs cfgDefault (initSt []) [Act.tick] :=
  ⟨(c8_single_flight cfgDefault [] [Act.tick]).1,
   (c8_single_flight cfgDefault [] [Act.tick]).2.2.1 (by decide)⟩

/-! ### Fallback characterisation (C7) -/

theorem fallbackUser_name_mem (hue idx : Nat) :
    (fallbackUser hue idx).name ∈ fallbackNames := by
  have h5 : idx % fallbackNames.length < fallbackNames.length :=
    Nat.mod_lt _ (by decide)
  simp only [fallbackUser]
  rw [List.getD_eq_getElem _ _ h5]
  exact List.getElem_mem h5

/-- C7 (amended): the local fallback is used exactly on the throwing
paths — fetch or parse failure, a missing or empty `results` list, or
a first result lacking its `name` object — and then the returned name
comes from the fixed local list with no avatar.  Whenever the first
result's `name` object is present, the fetched data is used instead,
even if `picture.large`, `name.first` or `name.last` are missing (the
missing name parts are interpolated as the string "undefined" and a
missing picture merely yields no avatar).  In every case a user record
is returned; no error is surfaced. -/
theorem c7_fallback_amended (o : FetchOutcome) (hue idx : Nat) :
    (fallsBack o = true →
      (fetchRandomUser o hue idx).name ∈ fallbackNames
      ∧ (fetchRandomUser o hue idx).avatarUrl = none)
    ∧ (∀ d u0 res nm, o = FetchOutcome.ok d → d.results = some (u0 :: res) →
        u0.name = some nm →
        fetchRandomUser o hue idx =
          { avatarUrl := u0.picture.bind (fun p => p.large)
            name := jsStr nm.first ++ " " ++ jsStr nm.last
            initials := none
            color := hslColor hue }) := by
  constructor
  · intro hfb
    cases o with
    | fail => exact ⟨fallbackUser_name_mem hue idx, rfl⟩
    | ok d =>
      cases hr : d.results with
      | none =>
        simp [fetchRandomUser, tryFetchUser, hr]
        exact ⟨fallbackUser_name_mem hue idx, rfl⟩
      | some rs =>
        cases rs with
        | nil =>
          simp [fetchRandomUser, tryFetchUser, hr]
          exact ⟨fallbackUser_name_mem hue idx, rfl⟩
        | cons u0 rest =>
          cases hn : u0.name with
          | none =>
            simp [fetchRandomUser, tryFetchUser, hr, hn]
            exact ⟨fallbackUser_name_mem hue idx, rfl⟩
          | some nm =>
            exfalso
            simp [fallsBack, hr, hn] at hfb
  · intro d u0 res nm ho hres hnm
    subst ho
    simp [fetchRandomUser, tryFetchUser, hres, hnm]

/-- Witness for the amended C7 theorem: a failed fetch lands in the
fallback list, and the `c7Data` response (name present, picture
missing) bypasses the fallback and uses the fetched name. -/
theorem c7_fallback_amended_witness :
    ((fetchRandomUser FetchOutcome.fail 0 0).name ∈ fallbackNames
      ∧ (fetchRandomUser FetchOutcome.fail 0 0).avatarUrl = none)
    ∧ fetchRandomUser (FetchOutcome.ok c7Data) 0 0 =
        { avatarUrl := none
          name := jsStr (some "Alice") ++ " " ++ jsStr (some "Stone")
          initials := none
          color := hslColor 0 } :=
  ⟨(c7_fallback_amended FetchOutcome.fail 0 0).1 rfl,
   (c7_fallback_amended (FetchOutcome.ok c7Data) 0 0).2 c7Data
     { name := some { first := some "Alice", last := some "Stone" }, picture := none }
     [] { first := some "Alice", last := some "Stone" } rfl rfl rfl⟩

/-! ### Eviction transition (C4) -/

@[simp] theorem now_windowSetTimeout (d : Nat) (cb : Callback) (s : St) :
    ((windowSetTimeout d cb s).2).now = s.now := rfl

@[simp] theorem now_clearNoteTimeout (id : Nat) (s : St) :
    (clearNoteTimeout id s).now = s.now := by
  unfold clearNoteTimeout; split <;> rfl

@[simp] theorem now_scheduleAutoDismiss (cfg : Config) (n : Note) (s : St) :
    (scheduleAutoDismiss cfg n s).now = s.now := rfl

@[simp] theorem timers_scheduleAutoDismiss (cfg : Config) (n : Note) (s : St) :
    (scheduleAutoDismiss cfg n s).timers
      = s.timers ++ [{ handle := s.nextHandle, due := s.now + cfg.autoDismissTimeout,
                       cb := Callback.autoDismiss n.id }] := rfl

theorem find?_append_none {α : Type} (p : α → Bool) {l1 : List α} (l2 : List α)
    (h : ∀ x ∈ l1, p x = false) : (l1 ++ l2).find? p = l2.find? p := by
  induction l1 with
  | nil => rfl
  | cons a t ih =>
    have ha := h a (List.mem_cons_self a t)
    rw [List.cons_append, List.find?_cons_of_neg _ (by simp [ha]), ih]
    intro x hx
    exact h x (List.mem_cons_of_mem a hx)

/-- Under the eviction conditions, the `addGeneratedNote` updater takes
the eviction branch. -/
theorem generatedInsert_evict (cfg : Config) (newId : Nat) (s : St)
    (oldest : Note) (rest : List Note)
    (hm : s.mounted = true)
    (hnf : s.notes.filter (fun n => !n.fadingOut) = oldest :: rest)
    (hcap : cfg.maxNotifications ≤ (oldest :: rest).length) :
    generatedInsert cfg newId s
      = (let s1 := (windowSetTimeout cfg.animationDuration (Callback.evictionRemoval oldest) s).2
         let s2 := clearNoteTimeout oldest.id s1
         let s3 := { s2 with
            notes := markFading oldest.id s.notes ++ [{ id := newId, fadingOut := false }] }
         if 0 < cfg.autoDismissTimeout then
           scheduleAutoDismiss cfg { id := newId, fadingOut := false } s3
         else s3) := by
  unfold generatedInsert
  rw [if_neg (by simp [hm] : ¬ s.mounted = false), hnf, if_pos hcap]

theorem timers_clearNoteTimeout (id : Nat) (s : St) :
    (clearNoteTimeout id s).timers
      = match lookupTimeout id s.dismissTimeouts with
        | some t => s.timers.filter (fun tt => !(tt.handle == t))
        | none => s.timers := by
  unfold clearNoteTimeout
  cases h : lookupTimeout id s.dismissTimeouts <;> simp [h]

@[simp] theorem nextHandle_windowSetTimeout (d : Nat) (cb : Callback) (s : St) :
    ((windowSetTimeout d cb s).2).nextHandle = s.nextHandle + 1 := rfl

@[simp] theorem nextHandle_clearNoteTimeout (id : Nat) (s : St) :
    (clearNoteTimeout id s).nextHandle = s.nextHandle := by
  unfold clearNoteTimeout; split <;> rfl

@[simp] theorem dismissTimeouts_windowSetTimeout (d : Nat) (cb : Callback) (s : St) :
    ((windowSetTimeout d cb s).2).dismissTimeouts = s.dismissTimeouts := rfl

@[simp] theorem timers_windowSetTimeout (d : Nat) (cb : Callback) (s : St) :
    ((windowSetTimeout d cb s).2).timers
      = s.timers ++ [{ handle := s.nextHandle, due := s.now + d, cb := cb }] := rfl

/-- C4: when a generator insertion completes while the configured
maximum of non-fading records is reached, the resulting single state
update marks the oldest non-fading record as fading while the new
record is appended at the tail; the evicted record is still present in
the queue (it is not removed instantaneously), and its deletion is a
separate eviction-removal timer due exactly `animationDuration` later,
which cannot fire in the state produced by the insertion whenever the
animation duration is positive. -/
theorem c4_eviction_transition (cfg : Config) (s : St) (newId : Nat)
    (oldest : Note) (rest : List Note)
    (hm : s.mounted = true)
    (hnf : s.notes.filter (fun n => !n.fadingOut) = oldest :: rest)
    (hcap : cfg.maxNotifications ≤ (oldest :: rest).length)
    (hts : ∀ t ∈ s.timers, t.handle < s.nextHandle)
    (hms : ∀ kv ∈ s.dismissTimeouts, kv.2 < s.nextHandle) :
    (∃ pre, (addGeneratedNoteFinish cfg newId s).notes
        = pre ++ [{ id := newId, fadingOut := false }])
    ∧ { oldest with fadingOut := true } ∈ (addGeneratedNoteFinish cfg newId s).notes
    ∧ (∃ t ∈ (addGeneratedNoteFinish cfg newId s).timers,
        t.cb = Callback.evictionRemoval oldest
        ∧ t.due = s.now + cfg.animationDuration
        ∧ (0 < cfg.animationDuration →
            enabledAct cfg (Act.fire t.handle) (addGeneratedNoteFinish cfg newId s) = false)) := by
  have hred := generatedInsert_evict cfg newId s oldest rest hm hnf hcap
  have eN : (addGeneratedNoteFinish cfg newId s).notes
      = (generatedInsert cfg newId s).notes := rfl
  have eT : (addGeneratedNoteFinish cfg newId s).timers
      = (generatedInsert cfg newId s).timers := rfl
  have eNow : (addGeneratedNoteFinish cfg newId s).now
      = (generatedInsert cfg newId s).now := rfl
  have hN : (generatedInsert cfg newId s).notes
      = markFading oldest.id s.notes ++ [{ id := newId, fadingOut := false }] := by
    rw [hred]
    split <;> simp
  have hNow : (generatedInsert cfg newId s).now = s.now := by
    rw [hred]
    split <;> simp
  obtain ⟨L, M, hTeq, hL, hM⟩ :
      ∃ L M, (generatedInsert cfg newId s).timers
          = L ++ ({ handle := s.nextHandle, due := s.now + cfg.animationDuration,
                    cb := Callback.evictionRemoval oldest } : Timer) :: M
        ∧ (∀ t ∈ L, t.handle < s.nextHandle)
        ∧ (∀ t ∈ M, t.handle = s.nextHandle + 1) := by
    rw [hred]
    cases hl : lookupTimeout oldest.id s.dismissTimeouts with
    | none =>
      by_cases had : 0 < cfg.autoDismissTimeout
      · refine ⟨s.timers,
          [{ handle := s.nextHandle + 1, due := s.now + cfg.autoDismissTimeout,
             cb := Callback.autoDismiss newId }], ?_, hts, ?_⟩
        · simp [had, timers_clearNoteTimeout, hl]
        · intro t ht
          simp at ht
          rw [ht]
      · refine ⟨s.timers, [], ?_, hts, ?_⟩
        · simp [had, timers_clearNoteTimeout, hl]
        · intro t ht
          cases ht
    | some t0 =>
      have ht0 : t0 < s.nextHandle := by
        unfold lookupTimeout at hl
        cases hfk : s.dismissTimeouts.find? (fun kv => kv.1 == oldest.id) with
        | none => rw [hfk] at hl; cases hl
        | some kv =>
          rw [hfk] at hl
          simp at hl
          have hkv : kv ∈ s.dismissTimeouts := List.mem_of_find?_eq_some hfk
          have hlt := hms kv hkv
          omega
      have hne : ((s.nextHandle == t0) = false) :=
        beq_eq_false_iff_ne.mpr (Nat.ne_of_gt ht0)
      by_cases had : 0 < cfg.autoDismissTimeout
      · refine ⟨s.timers.filter (fun tt => !(tt.handle == t0)),
          [{ handle := s.nextHandle + 1, due := s.now + cfg.autoDismissTimeout,
             cb := Callback.autoDismiss newId }], ?_, ?_, ?_⟩
        · simp [had, timers_clearNoteTimeout, hl, List.filter_append, hne]
        · intro t ht
          exact hts t (List.mem_of_mem_filter ht)
        · intro t ht
          simp at ht
          rw [ht]
      · refine ⟨s.timers.filter (fun tt => !(tt.handle == t0)), [], ?_, ?_, ?_⟩
        · simp [had, timers_clearNoteTimeout, hl, List.filter_append, hne]
        · intro t ht
          exact hts t (List.mem_of_mem_filter ht)
        · intro t ht
          cases ht
  refine ⟨⟨markFading oldest.id s.notes, by rw [eN, hN]⟩, ?_, ?_⟩
  · rw [eN, hN]
    refine List.mem_append_left _ ?_
    have ho : oldest ∈ s.notes := by
      have : oldest ∈ s.notes.filter (fun n => !n.fadingOut) := by
        rw [hnf]; exact List.mem_cons_self _ _
      exact List.mem_of_mem_filter this
    have hmap := List.mem_map_of_mem
      (fun n => if n.id == oldest.id then { n with fadingOut := true } else n) ho
    simpa [markFading] using hmap
  · refine ⟨{ handle := s.nextHandle, due := s.now + cfg.animationDuration,
              cb := Callback.evictionRemoval oldest }, ?_, rfl, rfl, ?_⟩
    · rw [eT, hTeq]
      exact List.mem_append_right _ (List.mem_cons_self _ _)
    · intro hdur
      have hfind : (addGeneratedNoteFinish cfg newId s).timers.find?
          (fun t => t.handle == s.nextHandle)
          = some { handle := s.nextHandle, due := s.now + cfg.animationDuration,
                   cb := Callback.evictionRemoval oldest } := by
        rw [eT, hTeq]
        rw [find?_append_none _ _ (fun x hx =>
          beq_eq_false_iff_ne.mpr (Nat.ne_of_lt (hL x hx)))]
        exact List.find?_cons_of_pos _ (by simp)
      show (match (addGeneratedNoteFinish cfg newId s).timers.find?
              (fun t => t.handle == s.nextHandle) with
            | some t => decide (t.due ≤ (addGeneratedNoteFinish cfg newId s).now)
            | none => false) = false
      rw [hfind, eNow, hNow]
      simp only []
      exact decide_eq_false (by omega)

/-- Witness for the C4 theorem: completing a generation at a full
default-configured queue evicts record 1 gracefully. -/
theorem c4_eviction_transition_witness :
    (∃ pre, (addGeneratedNoteFinish cfgDefault 9 c4St).notes
        = pre ++ [{ id := 9, fadingOut := false }])
    ∧ { id := 1, fadingOut := true } ∈ (addGeneratedNoteFinish cfgDefault 9 c4St).notes
    ∧ (∃ t ∈ (addGeneratedNoteFinish cfgDefault 9 c4St).timers,
        t.cb = Callback.evictionRemoval ⟨1, false⟩
        ∧ t.due = c4St.now + cfgDefault.animationDuration
        ∧ (0 < cfgDefault.animationDuration →
            enabledAct cfgDefault (Act.fire t.handle)
              (addGeneratedNoteFinish cfgDefault 9 c4St) = false)) :=
  c4_eviction_transition cfgDefault c4St 9 ⟨1, false⟩ [⟨2, false⟩, ⟨3, false⟩]
    rfl (by decide) (by decide) (by decide) (by decide)

/-- Witness for the C9 theorem at concrete contexts. -/
theorem c9_context_guards_witness :
    (throwsError (PopoverTrigger none) = true ↔ (none : Option PopoverContextValue) = none)
    ∧ (throwsError (useSidebar (some { isOpen := true })) = true
        ↔ (some { isOpen := true } : Option SidebarContextValue) = none)
    ∧ (throwsError (DropdownMenuTrigger none) = true
        ↔ (none : Option DropdownMenuContextValue) = none) :=
  c9_context_guards none (some { isOpen := true }) none

/-- Witness for the C10 theorem at a concrete state. -/
theorem c10_empty_batch_noop_witness :
    syncNotificationsEffect cfgDefault [] (initSt [⟨1, false⟩]) = initSt [⟨1, false⟩] :=
  c10_empty_batch_noop cfgDefault (initSt [⟨1, false⟩])
